import Mathlib

/-!
Verification of the temporal-classification and mutation-façade core of the
ticktick-mcp-v2 repository.  The Python sources under `src/utils/timezone_utils.py`,
`src/adapters/client.py` and `src/tools/tasks.py` are shallowly embedded below:
pure helpers become Lean functions, dict mutation becomes an explicit heap update,
and the remote client is an explicit environment of call outcomes.  External
library primitives (`datetime.fromisoformat`, `pytz`, the ticktick.py date
formatter) are modelled: the ISO parser covers the extended-format subset the
repository feeds it, and the timezone database is an explicit parameter.
-/

namespace TickTick

/-! ## Python-string primitives (models of `str` methods used by the source) -/

/-- Model of `str.startswith` on character lists. -/
def listStartsWith : List Char → List Char → Bool
  | _, [] => true
  | [], _ :: _ => false
  | c :: cs, p :: ps => c == p && listStartsWith cs ps

/-- Model of `str.endswith` on character lists. -/
def listEndsWith (s pat : List Char) : Bool :=
  if s.length < pat.length then false
  else (s.drop (s.length - pat.length)) == pat

/-- Fuel-driven model of Python `str.replace` (replace every non-overlapping
occurrence, scanning left to right); fuel is the string length, enough because
each step consumes at least one character when the pattern is nonempty. -/
def listReplaceAux : Nat → List Char → List Char → List Char → List Char
  | 0, s, _, _ => s
  | fuel + 1, s, pat, rep =>
    match s with
    | [] => []
    | c :: cs =>
      if listStartsWith (c :: cs) pat then
        rep ++ listReplaceAux fuel ((c :: cs).drop pat.length) pat rep
      else
        c :: listReplaceAux fuel cs pat rep

/-- Model of Python `str.replace` (all occurrences). -/
def pyReplace (s pat rep : String) : String :=
  if pat.toList.isEmpty then s
  else String.mk (listReplaceAux s.toList.length s.toList pat.toList rep.toList)

/-- Model of `str.endswith` on strings. -/
def pyEndsWith (s pat : String) : Bool := listEndsWith s.toList pat.toList

/-- Truthiness of `s and s.strip()` in Python: the string is nonempty and
contains at least one non-whitespace character. -/
def truthyStrip (s : String) : Bool :=
  decide (s.toList ≠ []) && s.toList.any (fun c => !c.isWhitespace)

/-- Truthiness of an optional string (`None` and `""` are falsy). -/
def truthyOptStr : Option String → Bool
  | none => false
  | some s => s ≠ ""

/-! ## Calendar arithmetic (model of `datetime.date` ordering and of the
conversion between calendar dates and epoch day counts) -/

/-- A calendar date, as carried by a Python `date` object. -/
structure Date where
  year : Int
  month : Int
  day : Int
deriving DecidableEq, Repr

/-- Days from civil date to days-since-epoch (1970-01-01 = day 0),
Howard Hinnant's algorithm with floor division. -/
def daysFromCivil (d : Date) : Int :=
  let y : Int := if d.month ≤ 2 then d.year - 1 else d.year
  let era : Int := y.fdiv 400
  let yoe : Int := y - era * 400
  let mp : Int := (d.month + 9).emod 12
  let doy : Int := (153 * mp + 2).fdiv 5 + d.day - 1
  let doe : Int := yoe * 365 + yoe.fdiv 4 - yoe.fdiv 100 + doy
  era * 146097 + doe - 719468

/-- Days-since-epoch back to the civil date (inverse of `daysFromCivil`). -/
def civilFromDays (z0 : Int) : Date :=
  let z : Int := z0 + 719468
  let era : Int := z.fdiv 146097
  let doe : Int := z - era * 146097
  let yoe : Int := (doe - doe.fdiv 1460 + doe.fdiv 36524 - doe.fdiv 146096).fdiv 365
  let y : Int := yoe + era * 400
  let doy : Int := doe - (365 * yoe + yoe.fdiv 4 - yoe.fdiv 100)
  let mp : Int := (5 * doy + 2).fdiv 153
  let d : Int := doy - (153 * mp + 2).fdiv 5 + 1
  let m : Int := mp + (if mp < 10 then 3 else -9)
  ⟨y + (if m ≤ 2 then 1 else 0), m, d⟩

/-- Chronological strict order on dates (model of Python `date.__lt__`). -/
def Date.beforeB (a b : Date) : Bool := daysFromCivil a < daysFromCivil b

/-- Model of `datetime.date` leap-year rule. -/
def isLeapYear (y : Int) : Bool :=
  (y.emod 4 == 0 && y.emod 100 != 0) || (y.emod 400 == 0)

/-- Days in a month, Gregorian calendar. -/
def daysInMonth (y m : Int) : Int :=
  if m = 2 then (if isLeapYear y then 29 else 28)
  else if m = 4 || m = 6 || m = 9 || m = 11 then 30
  else 31

/-! ## Wall-clock datetimes (model of Python `datetime`) -/

/-- A wall-clock datetime without zone information (the "naive" reading of a
`datetime`'s fields). -/
structure NaiveDT where
  date : Date
  hour : Int
  minute : Int
  second : Int
  micro : Int
deriving DecidableEq, Repr

/-- A datetime as returned by `datetime.fromisoformat`: wall-clock fields plus,
when the string carried an offset, that UTC offset in minutes (`none` = naive). -/
structure ParsedDT where
  wall : NaiveDT
  offsetMinutes : Option Int
deriving DecidableEq, Repr

/-- Minutes since epoch of the wall-clock fields, ignoring seconds (offsets are
whole minutes, so seconds can never move an instant across a day boundary). -/
def NaiveDT.toMinutes (w : NaiveDT) : Int :=
  daysFromCivil w.date * 1440 + w.hour * 60 + w.minute

/-- UTC minutes since epoch of the instant a parsed datetime denotes; a naive
datetime is interpreted in the system zone (`sysOff` minutes east of UTC),
which is what `datetime.astimezone` does. -/
def ParsedDT.instantMinutes (p : ParsedDT) (sysOff : Int) : Int :=
  p.wall.toMinutes - (p.offsetMinutes.getD sysOff)

/-! ## ISO-8601 parse model (model of `datetime.fromisoformat` on the extended
format `YYYY-MM-DD[THH:MM[:SS[.ffffff]]][offset]` the repository feeds it) -/

/-- Digit value, or `none` for a non-digit. -/
def digitVal (c : Char) : Option Nat :=
  if c.isDigit then some (c.toNat - 48) else none

/-- Read exactly `n` digits into a number. -/
def takeDigits : Nat → Nat → List Char → Option (Nat × List Char)
  | 0, acc, cs => some (acc, cs)
  | n + 1, acc, c :: cs =>
    match digitVal c with
    | some d => takeDigits n (acc * 10 + d) cs
    | none => none
  | _ + 1, _, [] => none

/-- Longest digit run at the head of the list (value, digit count, rest). -/
def spanDigits : List Char → List Char × List Char
  | [] => ([], [])
  | c :: cs =>
    if c.isDigit then
      let (a, b) := spanDigits cs
      (c :: a, b)
    else ([], c :: cs)

/-- Numeric value of a digit list. -/
def digitsToNat (ds : List Char) : Nat :=
  ds.foldl (fun a c => a * 10 + (c.toNat - 48)) 0

/-- Parse the `YYYY-MM-DD` date part. -/
def parseDatePart (cs : List Char) : Option (Date × List Char) := do
  let (y, cs) ← takeDigits 4 0 cs
  match cs with
  | '-' :: cs =>
    let (m, cs) ← takeDigits 2 0 cs
    match cs with
    | '-' :: cs =>
      let (d, cs) ← takeDigits 2 0 cs
      if 1 ≤ y && y ≤ 9999 && 1 ≤ m && m ≤ 12 &&
          1 ≤ d && (d : Int) ≤ daysInMonth (y : Int) (m : Int) then
        some (⟨(y : Int), (m : Int), (d : Int)⟩, cs)
      else none
    | _ => none
  | _ => none

/-- Parse the `HH[:MM[:SS[.ffffff]]]` time part. -/
def parseTimePart (cs : List Char) : Option ((Int × Int × Int × Int) × List Char) := do
  let (h, cs) ← takeDigits 2 0 cs
  if h ≥ 24 then none
  else
    match cs with
    | ':' :: cs => do
      let (mi, cs) ← takeDigits 2 0 cs
      if mi ≥ 60 then none
      else
        match cs with
        | ':' :: cs => do
          let (sec, cs) ← takeDigits 2 0 cs
          if sec ≥ 60 then none
          else
            match cs with
            | '.' :: cs =>
              let (ds, rest) := spanDigits cs
              if ds.isEmpty then none
              else some (((h : Int), (mi : Int), (sec : Int), (digitsToNat ds : Int)), rest)
            | _ => some (((h : Int), (mi : Int), (sec : Int), 0), cs)
        | _ => some (((h : Int), (mi : Int), 0, 0), cs)
    | _ => some (((h : Int), 0, 0, 0), cs)

/-- Parse the optional UTC offset (`Z`, `±HH:MM` or `±HHMM`); the offset must
end the string. -/
def parseOffsetPart (cs : List Char) : Option (Option Int) :=
  match cs with
  | [] => some none
  | ['Z'] => some (some 0)
  | sign :: cs =>
    if sign = '+' || sign = '-' then
      match takeDigits 2 0 cs with
      | none => none
      | some (oh, cs) =>
        let rest :=
          match cs with
          | ':' :: cs' => takeDigits 2 0 cs'
          | _ => takeDigits 2 0 cs
        match rest with
        | some (om, []) =>
          if oh < 24 && om < 60 then
            let total : Int := (oh : Int) * 60 + (om : Int)
            some (some (if sign = '-' then -total else total))
          else none
        | _ => none
    else none

/-- Model of `datetime.fromisoformat` on extended-format strings: date part,
optional `T`/space separator plus time part, optional trailing offset. -/
def parseIso (s : String) : Option ParsedDT := do
  let (d, cs) ← parseDatePart s.toList
  match cs with
  | [] => some ⟨⟨d, 0, 0, 0, 0⟩, none⟩
  | sep :: cs =>
    if sep = 'T' || sep = ' ' then do
      let ((h, mi, sec, mic), cs) ← parseTimePart cs
      let off ← parseOffsetPart cs
      some ⟨⟨d, h, mi, sec, mic⟩, off⟩
    else none

/-- strftime zero padding to two digits. -/
def pad2 (n : Nat) : String :=
  if n < 10 then "0" ++ toString n else toString n

/-- strftime zero padding to four digits (`%Y`). -/
def pad4 (n : Nat) : String :=
  if n < 10 then "000" ++ toString n
  else if n < 100 then "00" ++ toString n
  else if n < 1000 then "0" ++ toString n
  else toString n

/-- Model of `strftime("%Y-%m-%dT%H:%M:%S")` on a datetime's wall-clock
fields (offset and fraction are dropped by this format). -/
def formatWall (w : NaiveDT) : String :=
  pad4 w.date.year.toNat ++ "-" ++ pad2 w.date.month.toNat ++ "-" ++
    pad2 w.date.day.toNat ++ "T" ++ pad2 w.hour.toNat ++ ":" ++
    pad2 w.minute.toNat ++ ":" ++ pad2 w.second.toNat

/-! ## Timezone database (model of `pytz`) -/

/-- A resolved timezone: its UTC offset in minutes, possibly depending on the
instant (minutes since epoch, UTC) to account for daylight saving. -/
structure Zone where
  offsetAt : Int → Int

/-- The timezone database: `resolve` models `pytz.timezone`, returning `none`
exactly where the library raises `UnknownTimeZoneError`. -/
structure ZoneDB where
  resolve : String → Option Zone

/-- A small concrete database used for concrete evaluations (fixed-offset
zones; names not listed are unresolvable, as `pytz` treats unknown names). -/
def sampleDB : ZoneDB :=
  ⟨fun s =>
    if s = "Asia/Shanghai" then some ⟨fun _ => 480⟩
    else if s = "UTC" then some ⟨fun _ => 0⟩
    else none⟩

/-- Wall-clock fields of `dt.astimezone(tz)`: shift the denoted instant by the
zone's offset (a naive `dt` is first interpreted in the system zone `sysOff`,
as `astimezone` does). -/
def astimezoneWall (p : ParsedDT) (z : Zone) (sysOff : Int) : NaiveDT :=
  let inst := p.instantMinutes sysOff
  let locMin := inst + z.offsetAt inst
  { date := civilFromDays (locMin.fdiv 1440)
    hour := (locMin.emod 1440).fdiv 60
    minute := locMin.emod 60
    second := p.wall.second
    micro := p.wall.micro }

/-! ## Task records (model of the task dicts the remote client serves) -/

/-- A task record; every field is optional because the source reads them with
`dict.get`. -/
structure Task where
  id : Option String := none
  projectId : Option String := none
  title : Option String := none
  content : Option String := none
  priority : Option Int := none
  status : Option Int := none
  startDate : Option String := none
  dueDate : Option String := none
  timeZone : Option String := none
  modifiedTime : Option String := none
  createdTime : Option String := none
deriving DecidableEq, Repr

/-! ## `src/utils/timezone_utils.py` -/

/-- The trailing-suffix normalization performed at the top of both
`convert_utc_to_local_time` and `parse_task_date`: a string ending in `"Z"` has
every `"Z"` replaced by `"+00:00"`, else one ending in `"+0000"` has every
`"+0000"` replaced by `"+00:00"` (Python `str.replace` replaces all
occurrences). -/
def pyNormalizeSuffix (s : String) : String :=
  if pyEndsWith s "Z" then pyReplace s "Z" "+00:00"
  else if pyEndsWith s "+0000" then pyReplace s "+0000" "+00:00"
  else s

/-- Embedding of `convert_utc_to_local_time(utc_time_str, timezone_str)`: normalize the
suffix, parse; on parse failure or an unresolvable (truthy) zone the
`except` branch returns the current value of `utc_time_str`, which is the
normalized string; an empty/whitespace zone skips conversion and formats the
parsed wall clock; a resolved zone formats `astimezone`'s wall clock. -/
def convert_utc_to_local_time (db : ZoneDB) (sysOff : Int)
    (utc_time_str timezone_str : String) : String :=
  let s' := pyNormalizeSuffix utc_time_str
  match parseIso s' with
  | none => s'
  | some utc_dt =>
    if truthyStrip timezone_str then
      match db.resolve timezone_str with
      | some tz => formatWall (astimezoneWall utc_dt tz sysOff)
      | none => s'
    else formatWall utc_dt.wall

/-- Embedding of `parse_task_date(date_str)`: `None`/empty is rejected, then the suffix is
normalized and `fromisoformat` attempted, `None` on failure. -/
def parse_task_date (date_str : String) : Option ParsedDT :=
  if date_str = "" then none
  else parseIso (pyNormalizeSuffix date_str)

/-- Embedding of `get_user_today(user_timezone)` with the wall clock made explicit:
`nowUtcMin` is the current instant in minutes since epoch (UTC).  A truthy,
resolvable zone yields `datetime.now(tz).date()`; otherwise (falsy zone, or
`UnknownTimeZoneError` caught) the UTC date of the instant. -/
def get_user_today (db : ZoneDB) (nowUtcMin : Int) (user_timezone : String) : Date :=
  if truthyStrip user_timezone then
    match db.resolve user_timezone with
    | some tz => civilFromDays ((nowUtcMin + tz.offsetAt nowUtcMin).fdiv 1440)
    | none => civilFromDays (nowUtcMin.fdiv 1440)
  else civilFromDays (nowUtcMin.fdiv 1440)

/-- The conversion block duplicated verbatim inside `is_task_due_today` and
`is_task_overdue`: with a truthy resolvable zone, `astimezone(tz).date()`;
with a truthy unresolvable zone (`UnknownTimeZoneError` caught) or a falsy
zone, `task_datetime.date()` — the parsed datetime's own wall-clock date. -/
def task_local_date (db : ZoneDB) (sysOff : Int) (p : ParsedDT)
    (user_timezone : String) : Date :=
  if truthyStrip user_timezone then
    match db.resolve user_timezone with
    | some tz =>
      let inst := p.instantMinutes sysOff
      civilFromDays ((inst + tz.offsetAt inst).fdiv 1440)
    | none => p.wall.date
  else p.wall.date

/-- Embedding of `is_task_due_today(task, user_timezone)`: falsy or unparsable `dueDate`
gives `False`; otherwise the task's local calendar date is compared for
equality with the user's today. -/
def is_task_due_today (db : ZoneDB) (sysOff : Int) (nowUtcMin : Int)
    (task : Task) (user_timezone : String) : Bool :=
  match task.dueDate with
  | none => false
  | some due_date =>
    if due_date = "" then false
    else
      match parse_task_date due_date with
      | none => false
      | some task_datetime =>
        let user_today := get_user_today db nowUtcMin user_timezone
        let local_date := task_local_date db sysOff task_datetime user_timezone
        local_date == user_today

/-- Embedding of `is_task_overdue(task, user_timezone)`: falsy `dueDate`, completed status
(`status == 2`) or unparsable `dueDate` gives `False`; otherwise `True` iff the
task's local calendar date is strictly before the user's today. -/
def is_task_overdue (db : ZoneDB) (sysOff : Int) (nowUtcMin : Int)
    (task : Task) (user_timezone : String) : Bool :=
  match task.dueDate with
  | none => false
  | some due_date =>
    if due_date = "" then false
    else if task.status == some 2 then false
    else
      match parse_task_date due_date with
      | none => false
      | some task_datetime =>
        let user_today := get_user_today db nowUtcMin user_timezone
        let local_date := task_local_date db sysOff task_datetime user_timezone
        Date.beforeB local_date user_today

/-- The field assignments `convert_task_times_to_local` performs on the task
dict: each truthy date field is replaced by its display conversion, using the
task's own `timeZone` (default `""`). -/
def convertTaskTimesValue (db : ZoneDB) (sysOff : Int) (task : Task) : Task :=
  let timezone_str := task.timeZone.getD ""
  let task :=
    if truthyOptStr task.startDate then
      { task with startDate :=
          task.startDate.map (fun s => convert_utc_to_local_time db sysOff s timezone_str) }
    else task
  let task :=
    if truthyOptStr task.dueDate then
      { task with dueDate :=
          task.dueDate.map (fun s => convert_utc_to_local_time db sysOff s timezone_str) }
    else task
  let task :=
    if truthyOptStr task.modifiedTime then
      { task with modifiedTime :=
          task.modifiedTime.map (fun s => convert_utc_to_local_time db sysOff s timezone_str) }
    else task
  let task :=
    if truthyOptStr task.createdTime then
      { task with createdTime :=
          task.createdTime.map (fun s => convert_utc_to_local_time db sysOff s timezone_str) }
    else task
  task

/-- A heap of task records: Python dicts are heap-allocated and passed by
reference, so mutation claims are stated over an explicit store. -/
abbrev Heap := Nat → Task

/-- Embedding of `convert_task_times_to_local(task)` at the heap level: the function
receives a reference, assigns the converted strings into the referenced dict
(`task["startDate"] = ...` mutates in place) and returns the same reference. -/
def convert_task_times_to_local (db : ZoneDB) (sysOff : Int)
    (h : Heap) (r : Nat) : Heap × Nat :=
  (fun x => if x = r then convertTaskTimesValue db sysOff (h x) else h x, r)

/-! ## `src/adapters/client.py` — delete state machine -/

/-- Outcome of one `client.get_by_id` call: the call raises, returns `None`,
returns an empty dict (falsy but not `None`), or returns a nonempty task. -/
inductive Fetch where
  | raises
  | null
  | emptyDict
  | found (t : Task)
deriving DecidableEq, Repr

/-- Falsiness test `if not prefetch_task:` — `None` and the empty dict are falsy. -/
def Fetch.isFalsy : Fetch → Bool
  | .null => true
  | .emptyDict => true
  | _ => false

/-- The remote-client behaviour `delete_task` can observe, one field per call
site in source order: the prefetch result, whether `task.delete(task_id)`
succeeds, whether the client exposes `sync` and whether that call succeeds,
the refetch result, and whether `task.delete(task_obj)` succeeds. -/
structure DeleteEnv where
  prefetch : Fetch
  deleteByIdOk : Bool
  hasSync : Bool
  syncOk : Bool
  refetch : Fetch
  deleteByObjOk : Bool
deriving DecidableEq, Repr

/-- Counts of provider calls made during a `delete_task` run. -/
structure CallLog where
  deleteByIdCalls : Nat
  deleteByObjCalls : Nat
  syncCalls : Nat
deriving DecidableEq, Repr

/-- Result of `delete_task`: a returned value or a propagated exception. -/
inductive DeleteResult where
  | ok (b : Bool)
  | raised
deriving DecidableEq, Repr

/-- Embedding of `TickTickAdapter.delete_task(project_id, task_id)`.  With a falsy
`project_id` the task is prefetched: a falsy prefetch returns `True` before any
delete call, and a prefetch exception is only logged.  Then `task.delete`
by id is attempted; on failure the fallback runs: best-effort `client.sync()`
when present (its own failure is swallowed), refetch (an exception or `None`
returns `True`), then one `task.delete` with the full task object whose failure
propagates. -/
def delete_task (env : DeleteEnv) (project_id_truthy : Bool) : DeleteResult × CallLog :=
  let prefetchAbsent :=
    if !project_id_truthy then
      match env.prefetch with
      | .raises => false
      | f => f.isFalsy
    else false
  if prefetchAbsent then (.ok true, ⟨0, 0, 0⟩)
  else if env.deleteByIdOk then (.ok true, ⟨1, 0, 0⟩)
  else
    let syncCount := if env.hasSync then 1 else 0
    match env.refetch with
    | .raises => (.ok true, ⟨1, 0, syncCount⟩)
    | .null => (.ok true, ⟨1, 0, syncCount⟩)
    | .emptyDict =>
      if env.deleteByObjOk then (.ok true, ⟨1, 1, syncCount⟩)
      else (.raised, ⟨1, 1, syncCount⟩)
    | .found _ =>
      if env.deleteByObjOk then (.ok true, ⟨1, 1, syncCount⟩)
      else (.raised, ⟨1, 1, syncCount⟩)

/-! ## `src/adapters/client.py` — updates -/

/-- The truthy-guarded basic-field writes at the top of
`TickTickAdapter.update_task_with_dates` (`if title:`, `if content:`,
`if priority is not None:`, `if project_id is not None:`), applied to the
fetched task in source order. -/
def applyBasicFields (fetched : Task) (title content : Option String)
    (priority : Option Int) (project_id : Option String) : Task :=
  let task := fetched
  let task := if truthyOptStr title then { task with title := title } else task
  let task := if truthyOptStr content then { task with content := content } else task
  let task := if priority.isSome then { task with priority := priority } else task
  if project_id.isSome then { task with projectId := project_id } else task

/-- Embedding of `TickTickAdapter.update_task_with_dates` after the task was fetched: the
basic-field writes above, then the date block (`if start_date or due_date:`),
which formats each *supplied* date through the provider formatter `fmt` with
the given zone and sets `timeZone` when the zone is truthy.  The returned
record is the payload submitted to `client.task.update`. -/
def update_task_with_dates (fmt : NaiveDT → String → String) (fetched : Task)
    (title content : Option String) (start_date due_date : Option NaiveDT)
    (priority : Option Int) (project_id : Option String)
    (timezone : String) : Task :=
  let task := applyBasicFields fetched title content priority project_id
  if start_date.isSome || due_date.isSome then
    let task :=
      match start_date with
      | some d => { task with startDate := some (fmt d timezone) }
      | none => task
    let task :=
      match due_date with
      | some d => { task with dueDate := some (fmt d timezone) }
      | none => task
    if timezone ≠ "" then { task with timeZone := some timezone } else task
  else task

/-- Embedding of `TickTickAdapter.update_task` after the fetch, as reached from
`tools.tasks.update_task`'s simple (no-date) path: the tool layer filters out
only `None` arguments (`if title is not None: ...`), and `task.update(kwargs)`
assigns every key present, so explicit `""` and `0` are applied; `project_id`
is applied when not `None`. -/
def update_task_simple (fetched : Task) (title content : Option String)
    (priority : Option Int) (project_id : Option String) : Task :=
  let task := fetched
  let task := match title with | some s => { task with title := some s } | none => task
  let task := match content with | some s => { task with content := some s } | none => task
  let task := match priority with | some p => { task with priority := some p } | none => task
  match project_id with
  | some pid => { task with projectId := some pid }
  | none => task

/-! ## `src/adapters/client.py` — cached-list reads -/

/-- Embedding of `TickTickAdapter.get_tasks(include_completed)` over the client's cached
`state["tasks"]`: when `include_completed` is false, tasks with
`status == COMPLETED_STATUS` (2) are filtered out. -/
def get_tasks (tasks : List Task) (include_completed : Bool) : List Task :=
  if include_completed then tasks
  else tasks.filter (fun task => !(task.status == some 2))

/-- Embedding of `TickTickAdapter.get_tasks_by_priority(priority)` over the same cached
list: keeps exactly the tasks with `task.get("priority") == priority`; no
status filter is applied. -/
def get_tasks_by_priority (tasks : List Task) (priority : Int) : List Task :=
  tasks.filter (fun task => task.priority == some priority)

/-! ## Definitions for claim comparison and concrete evaluation -/

/-- The claim's "UTC calendar date of the instant": shift the parsed wall
clock back by its own encoded offset and take the calendar date.  This follows
the spec's words ("falling back to the instant's UTC date"), for comparison
with the source's fallback. -/
def utcCalendarDate (p : ParsedDT) : Date :=
  civilFromDays ((p.wall.toMinutes - p.offsetMinutes.getD 0).fdiv 1440)

/-- A task whose due date carries a non-zero encoded offset (UTC-5). -/
def c2task : Task := { dueDate := some "2025-08-01T21:00:00-05:00" }

/-- A fixed "now": 2025-08-02 10:00 UTC, in minutes since epoch. -/
def c2now : Int := daysFromCivil ⟨2025, 8, 2⟩ * 1440 + 600

/-- The parse of `c2task`'s due date: wall clock 2025-08-01T21:00:00 at
offset -300 minutes. -/
def c2parsed : ParsedDT := ⟨⟨⟨2025, 8, 1⟩, 21, 0, 0, 0⟩, some (-300)⟩

/-- A one-cell heap holding a task with a UTC-encoded due date and an empty
task-level zone. -/
def c3heap : Heap :=
  fun _ => { dueDate := some "2025-08-01T16:00:00.000+0000", timeZone := some "" }

/-- A constant provider date formatter: every encoding it produces is `"F"`,
so a field holding any other string was not produced by it. -/
def constFmt : NaiveDT → String → String := fun _ _ => "F"

/-- A concrete datetime argument for update calls. -/
def dt0 : NaiveDT := ⟨⟨2025, 8, 1⟩, 12, 0, 0, 0⟩

/-! ## Helper lemmas -/

/-- The basic-field block never touches the date fields. -/
theorem applyBasicFields_startDate (f : Task) (t c : Option String)
    (pr : Option Int) (pid : Option String) :
    (applyBasicFields f t c pr pid).startDate = f.startDate := by
  unfold applyBasicFields
  split_ifs <;> rfl

/-- The basic-field block never touches the due date. -/
theorem applyBasicFields_dueDate (f : Task) (t c : Option String)
    (pr : Option Int) (pid : Option String) :
    (applyBasicFields f t c pr pid).dueDate = f.dueDate := by
  unfold applyBasicFields
  split_ifs <;> rfl

/-- The basic-field block never touches the task-level zone. -/
theorem applyBasicFields_timeZone (f : Task) (t c : Option String)
    (pr : Option Int) (pid : Option String) :
    (applyBasicFields f t c pr pid).timeZone = f.timeZone := by
  unfold applyBasicFields
  split_ifs <;> rfl

/-- Priority is applied exactly when supplied (`is not None`). -/
theorem applyBasicFields_priority (f : Task) (t c : Option String)
    (pr : Option Int) (pid : Option String) :
    (applyBasicFields f t c pr pid).priority
      = (if pr.isSome then pr else f.priority) := by
  unfold applyBasicFields
  split_ifs <;> simp_all

/-- Content is applied exactly when truthy (`if content:`). -/
theorem applyBasicFields_content (f : Task) (t c : Option String)
    (pr : Option Int) (pid : Option String) :
    (applyBasicFields f t c pr pid).content
      = (if truthyOptStr c then c else f.content) := by
  unfold applyBasicFields
  split_ifs <;> simp_all

/-- Equal dates are never strictly ordered. -/
theorem beforeB_eq_false_of_beq (a b : Date) (h : (a == b) = true) :
    Date.beforeB a b = false := by
  have hab : a = b := by simpa using h
  subst hab
  simp [Date.beforeB]

/-! ## Claim theorems -/

/-- Claim C9: for every task record with `status == 2` (completed) and every
reference-zone string, `is_task_overdue` returns `false`, regardless of the
presence, value, or parsability of the task's `dueDate`.  Stated over the
record update that fixes `status := some 2`, covering exactly the completed
tasks. -/
theorem completed_task_never_overdue (db : ZoneDB) (sysOff nowUtcMin : Int)
    (task : Task) (zone : String) :
    is_task_overdue db sysOff nowUtcMin { task with status := some 2 } zone = false := by
  unfold is_task_overdue
  cases task.dueDate with
  | none => rfl
  | some s => by_cases hs : s = "" <;> simp [hs]

/-- Claim C8: for every task record and every reference-zone string, evaluated
against the same fixed "now" instant (and the same zone database and system
offset), `is_task_due_today` and `is_task_overdue` are never both true. -/
theorem due_today_and_overdue_exclusive (db : ZoneDB) (sysOff nowUtcMin : Int)
    (task : Task) (zone : String) :
    (is_task_due_today db sysOff nowUtcMin task zone &&
      is_task_overdue db sysOff nowUtcMin task zone) = false := by
  unfold is_task_due_today is_task_overdue
  cases hdue : task.dueDate with
  | none => rfl
  | some s =>
    by_cases hs : s = ""
    · simp [hs]
    · simp only [hs, if_false]
      cases hp : parse_task_date s with
      | none => simp
      | some p =>
        simp only
        cases hst : (task.status == some 2) with
        | true => simp
        | false =>
          simp only [Bool.false_eq_true, if_false]
          cases hbeq : (task_local_date db sysOff p zone == get_user_today db nowUtcMin zone) with
          | false => simp
          | true =>
            simp [beforeB_eq_false_of_beq _ _ hbeq]

/-- Claim C10: for every cached task list and every integer `p`,
`get_tasks_by_priority` returns exactly the tasks whose `priority` field equals
`p`, with no completion-status filter: a completed task (`status == 2`) with
priority `p` is kept by `get_tasks_by_priority`, unlike `get_tasks` with
`include_completed = false`, which drops it. -/
theorem tasks_by_priority_ignores_status (tasks : List Task) (p : Int) (t : Task) :
    (t ∈ get_tasks_by_priority tasks p ↔ t ∈ tasks ∧ t.priority = some p)
    ∧ ({ t with status := some 2, priority := some p } ∈
        get_tasks_by_priority ({ t with status := some 2, priority := some p } :: tasks) p)
    ∧ ({ t with status := some 2, priority := some p } ∉
        get_tasks ({ t with status := some 2, priority := some p } :: tasks) false) := by
  refine ⟨?_, ?_, ?_⟩
  · simp [get_tasks_by_priority, List.mem_filter]
  · simp [get_tasks_by_priority, List.mem_filter]
  · simp [get_tasks, List.mem_filter]

/-- Concrete instance: a completed priority-1 task is kept by the priority
filter. -/
theorem tasks_by_priority_ignores_status_witness :
    ({ status := some 2, priority := some 1 } : Task)
      ∈ get_tasks_by_priority [{ status := some 2, priority := some 1 }] 1 :=
  (tasks_by_priority_ignores_status [] 1 {}).2.1

/-- Claim C1: `delete_task` conforms to the specified delete state machine.
With no `project_id` and a falsy prefetch it returns `True` with zero provider
delete calls; when the direct delete-by-id fails (and the early exit was not
taken) the outcome is independent of whether the best-effort resync succeeds,
the resync is invoked exactly once when the client exposes one, an absent
(`None`) refetch returns `True` with no object delete, and a found refetch
triggers exactly one object-form delete whose success returns `True` and whose
failure propagates. -/
theorem delete_task_conforms_state_machine (env : DeleteEnv) (pj : Bool) :
    (pj = false → env.prefetch.isFalsy = true →
      delete_task env pj = (.ok true, ⟨0, 0, 0⟩))
    ∧ (env.deleteByIdOk = false → (pj = true ∨ env.prefetch.isFalsy = false) →
        ((∀ b, delete_task { env with syncOk := b } pj = delete_task env pj)
         ∧ (env.hasSync = true → (delete_task env pj).2.syncCalls = 1)
         ∧ (env.refetch = .null →
              delete_task env pj =
                (.ok true, ⟨1, 0, if env.hasSync then 1 else 0⟩))
         ∧ (∀ t, env.refetch = .found t →
              (delete_task env pj).2.deleteByObjCalls = 1
              ∧ (env.deleteByObjOk = true → (delete_task env pj).1 = .ok true)
              ∧ (env.deleteByObjOk = false → (delete_task env pj).1 = .raised)))) := by
  constructor
  · intro hpj hfal
    subst hpj
    unfold delete_task
    cases hpre : env.prefetch <;> simp_all [Fetch.isFalsy]
  · intro hid hreach
    have hfal : (if !pj then
        match env.prefetch with
        | .raises => false
        | f => f.isFalsy
      else false) = false := by
      rcases hreach with h | h
      · subst h; rfl
      · cases pj
        · cases hpre : env.prefetch <;> simp_all [Fetch.isFalsy]
        · rfl
    refine ⟨?_, ?_, ?_, ?_⟩
    · intro b
      unfold delete_task
      simp only [hfal, hid]
    · intro hsync
      unfold delete_task
      simp only [hfal, hid, hsync]
      cases env.refetch <;> simp <;> split <;> rfl
    · intro hre
      unfold delete_task
      simp only [hfal, hid, hre]
      rfl
    · intro t hre
      unfold delete_task
      simp only [hfal, hid, hre]
      cases hobj : env.deleteByObjOk <;> simp

/-- Concrete runs of the delete state machine: a null prefetch with no
`project_id` returns `True` without any provider call, and a failed
object-form retry after a found refetch propagates the failure. -/
theorem delete_task_conforms_state_machine_witness :
    delete_task ⟨.null, true, true, true, .null, true⟩ false = (.ok true, ⟨0, 0, 0⟩)
    ∧ (delete_task ⟨.found {}, false, true, true, .found {}, false⟩ false).1 = .raised :=
  ⟨(delete_task_conforms_state_machine ⟨.null, true, true, true, .null, true⟩ false).1
      rfl rfl,
   (((delete_task_conforms_state_machine ⟨.found {}, false, true, true, .found {}, false⟩
      false).2 rfl (Or.inr rfl)).2.2.2 {} rfl).2.2 rfl⟩

/-- Claim C4 counterexample: an unparsable input that ends in `"Z"` is not
returned character-for-character — the suffix normalization has already
rewritten the local variable, and the error path returns the rewritten
string. -/
theorem convert_unparsable_not_unchanged :
    convert_utc_to_local_time sampleDB 0 "not-a-dateZ" "Asia/Shanghai"
      = "not-a-date+00:00"
    ∧ "not-a-date+00:00" ≠ "not-a-dateZ" := by
  constructor
  · rfl
  · decide

/-- Claim C4 (amended): on an input whose suffix-normalized form does not
parse, `convert_utc_to_local_time` returns the suffix-normalized input for
every zone name — which is the original string character-for-character
whenever the input does not end in `"Z"` or `"+0000"` (in particular for
`"not-a-date"`); the function is total, hence never throws. -/
theorem convert_unparsable_returns_normalized (db : ZoneDB) (sysOff : Int)
    (s zone : String) (hp : parseIso (pyNormalizeSuffix s) = none) :
    convert_utc_to_local_time db sysOff s zone = pyNormalizeSuffix s
    ∧ (pyEndsWith s "Z" = false → pyEndsWith s "+0000" = false →
        convert_utc_to_local_time db sysOff s zone = s) := by
  constructor
  · unfold convert_utc_to_local_time
    simp only [hp]
  · intro h1 h2
    unfold convert_utc_to_local_time
    simp only [hp]
    unfold pyNormalizeSuffix
    simp [h1, h2]

/-- The spec's own instance of claim C4: `"not-a-date"` has no rewritable
suffix, so it comes back unchanged. -/
theorem convert_unparsable_returns_normalized_witness :
    convert_utc_to_local_time sampleDB 0 "not-a-date" "Asia/Shanghai" = "not-a-date" :=
  (convert_unparsable_returns_normalized sampleDB 0 "not-a-date" "Asia/Shanghai"
    (by decide)).2 (by decide) (by decide)

/-- Claim C5 counterexample: with a parsable UTC-encoded input and a truthy
but unresolvable zone name, the `UnknownTimeZoneError` path returns the
suffix-normalized input string, not the wall-clock form `YYYY-MM-DDTHH:MM:SS`
the claim requires. -/
theorem convert_invalid_zone_not_utc_format :
    convert_utc_to_local_time sampleDB 0 "2025-08-01T16:00:00.000+0000" "Invalid/Zone"
      = "2025-08-01T16:00:00.000+00:00"
    ∧ "2025-08-01T16:00:00.000+00:00" ≠ "2025-08-01T16:00:00" := by
  constructor
  · rfl
  · decide

/-- Claim C5 (amended): for every parsable input, an empty or whitespace-only
zone name yields the parsed instant's wall clock formatted as
`YYYY-MM-DDTHH:MM:SS` with no offset suffix (for a UTC-encoded input this is
the UTC wall clock); a truthy but unresolvable zone name instead returns the
suffix-normalized input string through the error path. -/
theorem convert_empty_zone_formats_invalid_zone_echoes (db : ZoneDB) (sysOff : Int)
    (s zone : String) (p : ParsedDT) (hp : parseIso (pyNormalizeSuffix s) = some p) :
    (truthyStrip zone = false →
      convert_utc_to_local_time db sysOff s zone = formatWall p.wall)
    ∧ (truthyStrip zone = true → db.resolve zone = none →
        convert_utc_to_local_time db sysOff s zone = pyNormalizeSuffix s) := by
  constructor
  · intro hz
    unfold convert_utc_to_local_time
    simp only [hp, hz]
    rfl
  · intro hz hres
    unfold convert_utc_to_local_time
    simp only [hp, hz, hres]
    rfl

/-- The spec's own instance of claim C5's empty-zone half:
`convertToLocal("2025-08-01T16:00:00.000+0000", "")` is
`"2025-08-01T16:00:00"`. -/
theorem convert_empty_zone_formats_invalid_zone_echoes_witness :
    convert_utc_to_local_time sampleDB 0 "2025-08-01T16:00:00.000+0000" ""
      = "2025-08-01T16:00:00" :=
  (convert_empty_zone_formats_invalid_zone_echoes sampleDB 0
    "2025-08-01T16:00:00.000+0000" ""
    ⟨⟨⟨2025, 8, 1⟩, 16, 0, 0, 0⟩, some 0⟩ (by decide)).1 (by decide)

/-- Claim C2 counterexample: a due date encoded at UTC-5 whose instant falls
on 2025-08-02 (UTC) is classified through its *wall-clock* date 2025-08-01
when the reference zone is unresolvable — the code reports it overdue and not
due today, while the claimed UTC-date rule (third conjunct: the instant's UTC
calendar date equals today) would make it due today and hence not overdue. -/
theorem classification_invalid_zone_not_utc_date :
    is_task_due_today sampleDB 0 c2now c2task "Invalid/Zone" = false
    ∧ is_task_overdue sampleDB 0 c2now c2task "Invalid/Zone" = true
    ∧ (parse_task_date "2025-08-01T21:00:00-05:00").map utcCalendarDate
        = some (get_user_today sampleDB c2now "Invalid/Zone") := by
  refine ⟨by decide, by decide, by decide⟩

/-- Claim C2 (amended): whenever the reference zone does not resolve (so for
every non-empty unresolvable zone string), `is_task_due_today` and
`is_task_overdue` classify a parsable due date by the parsed datetime's own
wall-clock calendar date — the date in the string's encoded offset, which
coincides with the instant's UTC date only when that offset is zero — compared
against the user's today. -/
theorem classification_invalid_zone_uses_wall_date (db : ZoneDB)
    (sysOff nowUtcMin : Int) (task : Task) (zone s : String) (p : ParsedDT)
    (hdue : task.dueDate = some s) (hp : parse_task_date s = some p)
    (hres : db.resolve zone = none) :
    is_task_due_today db sysOff nowUtcMin task zone
      = (p.wall.date == get_user_today db nowUtcMin zone)
    ∧ is_task_overdue db sysOff nowUtcMin task zone
      = (!(task.status == some 2)
          && Date.beforeB p.wall.date (get_user_today db nowUtcMin zone)) := by
  have hs : s ≠ "" := by
    intro h
    rw [h] at hp
    simp [parse_task_date] at hp
  have hloc : task_local_date db sysOff p zone = p.wall.date := by
    unfold task_local_date
    by_cases ht : truthyStrip zone <;> simp [ht, hres]
  constructor
  · unfold is_task_due_today
    simp only [hdue, hs, if_false, hp, hloc]
  · unfold is_task_overdue
    simp only [hdue, hs, if_false, hp, hloc]
    cases hst : (task.status == some 2) <;> simp

/-- Concrete run of the amended classification rule at the counterexample's
inputs. -/
theorem classification_invalid_zone_uses_wall_date_witness :
    is_task_due_today sampleDB 0 c2now c2task "Invalid/Zone"
      = (c2parsed.wall.date == get_user_today sampleDB c2now "Invalid/Zone") :=
  (classification_invalid_zone_uses_wall_date sampleDB 0 c2now c2task
    "Invalid/Zone" "2025-08-01T21:00:00-05:00" c2parsed rfl (by decide) rfl).1

/-- Claim C3 counterexample: after `convert_task_times_to_local` returns, the
caller's record — the heap cell it passed in, its only reference — holds the
converted due-date string, not the original one. -/
theorem convert_task_times_mutates_caller :
    ((convert_task_times_to_local sampleDB 0 c3heap 0).1 0).dueDate
      = some "2025-08-01T16:00:00"
    ∧ (c3heap 0).dueDate = some "2025-08-01T16:00:00.000+0000"
    ∧ some "2025-08-01T16:00:00" ≠ some ("2025-08-01T16:00:00.000+0000" : String) := by
  refine ⟨by decide, by decide, by decide⟩

/-- Claim C3 (amended): `convert_task_times_to_local` converts the task's date
fields *in place*: it returns the caller's own reference, the referenced
record afterwards holds the display-converted field values (each truthy date
field passed through `convert_utc_to_local_time` with the task's own zone),
every other record is untouched, and no copy is made. -/
theorem convert_task_times_in_place (db : ZoneDB) (sysOff : Int)
    (h : Heap) (r : Nat) :
    (convert_task_times_to_local db sysOff h r).2 = r
    ∧ (convert_task_times_to_local db sysOff h r).1 r
        = convertTaskTimesValue db sysOff (h r)
    ∧ (∀ x, x ≠ r → (convert_task_times_to_local db sysOff h r).1 x = h x)
    ∧ (∀ s, (h r).dueDate = some s → s ≠ "" →
        ((convert_task_times_to_local db sysOff h r).1 r).dueDate
          = some (convert_utc_to_local_time db sysOff s ((h r).timeZone.getD ""))) := by
  refine ⟨rfl, by simp [convert_task_times_to_local], ?_, ?_⟩
  · intro x hx
    simp [convert_task_times_to_local, hx]
  · intro s hdue hs
    have h2 : (convert_task_times_to_local db sysOff h r).1 r
        = convertTaskTimesValue db sysOff (h r) := by
      simp [convert_task_times_to_local]
    rw [h2]
    rcases hr : h r with ⟨id, pid, title, content, pr, st, sd, dd, tzf, mt, ct⟩
    rw [hr] at hdue
    simp only at hdue
    subst hdue
    cases sd <;> cases mt <;> cases ct <;>
      simp [convertTaskTimesValue, truthyOptStr, hs] <;> split_ifs <;> simp_all

/-- Concrete run of the in-place conversion at the counterexample's heap. -/
theorem convert_task_times_in_place_witness :
    ((convert_task_times_to_local sampleDB 0 c3heap 0).1 0).dueDate
      = some (convert_utc_to_local_time sampleDB 0 "2025-08-01T16:00:00.000+0000"
          ((c3heap 0).timeZone.getD "")) :=
  (convert_task_times_in_place sampleDB 0 c3heap 0).2.2.2
    "2025-08-01T16:00:00.000+0000" rfl (by decide)

/-- Claim C6 counterexample: with only `start_date` supplied and the fetched
task already carrying a `dueDate`, the stored `dueDate` string is passed
through untouched — under the constant formatter every re-encoded value is
`"F"`, so the surviving `"RAW"` was not re-encoded. -/
theorem update_unchanged_date_not_reencoded :
    (update_task_with_dates constFmt { dueDate := some "RAW" } none none
        (some dt0) none none none "Asia/Shanghai").dueDate = some "RAW"
    ∧ some "RAW" ≠ some (constFmt dt0 "Asia/Shanghai") := by
  refine ⟨by decide, by decide⟩

/-- Claim C6 (amended): when exactly one of `start_date` and `due_date` is
supplied, only the *supplied* date field is re-encoded through the provider's
date formatter with the given zone; the other stored date field is submitted
with its stored encoding untouched, and `timeZone` is set to the given zone
when that zone is nonempty. -/
theorem update_reencodes_only_supplied_dates (fmt : NaiveDT → String → String)
    (fetched : Task) (d : NaiveDT) (tz : String) (title content : Option String)
    (pr : Option Int) (pid : Option String) :
    (update_task_with_dates fmt fetched title content (some d) none pr pid tz).startDate
      = some (fmt d tz)
    ∧ (update_task_with_dates fmt fetched title content (some d) none pr pid tz).dueDate
      = fetched.dueDate
    ∧ (update_task_with_dates fmt fetched title content (some d) none pr pid tz).timeZone
      = (if tz ≠ "" then some tz else fetched.timeZone)
    ∧ (update_task_with_dates fmt fetched title content none (some d) pr pid tz).dueDate
      = some (fmt d tz)
    ∧ (update_task_with_dates fmt fetched title content none (some d) pr pid tz).startDate
      = fetched.startDate := by
  unfold update_task_with_dates
  refine ⟨?_, ?_, ?_, ?_, ?_⟩ <;>
    simp only [Option.isSome_some, Option.isSome_none, Bool.true_or, Bool.or_true,
      if_true] <;>
    split_ifs <;>
    simp [applyBasicFields_startDate, applyBasicFields_dueDate, applyBasicFields_timeZone]

/-- Claim C7 counterexample: in the date-bearing update path an explicitly
supplied empty-string `content` is dropped by the truthiness guard
(`if content:`), leaving the fetched content in the submitted write, even
though an explicit priority `0` is applied in the same call. -/
theorem update_empty_content_dropped :
    (update_task_with_dates constFmt { content := some "old" } none (some "")
        none (some dt0) (some 0) none "Asia/Shanghai").content = some "old"
    ∧ (update_task_with_dates constFmt { content := some "old" } none (some "")
        none (some dt0) (some 0) none "Asia/Shanghai").priority = some 0
    ∧ some "old" ≠ some ("" : String) := by
  refine ⟨by decide, by decide, by decide⟩

/-- Claim C7 (amended): in the simple (no-date) update path exactly the
supplied fields are applied — explicit priority `0` and explicit empty-string
content are written, and an all-`None` call leaves the task unchanged; in the
date-bearing path an explicit priority `0` is still applied, but empty-string
content is treated like an absent parameter and leaves the stored content
unchanged. -/
theorem update_applies_supplied_fields (fmt : NaiveDT → String → String)
    (fetched : Task) (title content : Option String) (sd dd : Option NaiveDT)
    (pr : Option Int) (pid : Option String) (tz : String) :
    (update_task_simple fetched title (some "") (some 0) pid).content = some ""
    ∧ (update_task_simple fetched title (some "") (some 0) pid).priority = some 0
    ∧ update_task_simple fetched none none none none = fetched
    ∧ (update_task_with_dates fmt fetched title content sd dd (some 0) pid tz).priority
      = some 0
    ∧ (update_task_with_dates fmt fetched title (some "") sd dd pr pid tz).content
      = fetched.content
    ∧ (update_task_with_dates fmt fetched title none sd dd pr pid tz).content
      = fetched.content := by
  refine ⟨?_, ?_, ?_, ?_, ?_, ?_⟩
  · cases title <;> cases pid <;> simp [update_task_simple]
  · cases title <;> cases pid <;> simp [update_task_simple]
  · rfl
  · unfold update_task_with_dates
    cases sd <;> cases dd <;>
      simp [applyBasicFields_priority] <;> split_ifs <;>
      simp [applyBasicFields_priority]
  · unfold update_task_with_dates
    cases sd <;> cases dd <;>
      simp [applyBasicFields_content, truthyOptStr] <;> split_ifs <;>
      simp [applyBasicFields_content, truthyOptStr]
  · unfold update_task_with_dates
    cases sd <;> cases dd <;>
      simp [applyBasicFields_content, truthyOptStr] <;> split_ifs <;>
      simp [applyBasicFields_content, truthyOptStr]

end TickTick
